import Mathlib

/-!
Verification development for the esphome humidifier component
(`esphome/components/humidifier/humidifier.h`).

The repository provides the header with all declarations; the method bodies
and the `humidifier_mode.h` / `humidifier_traits.h` headers are not part of
the sources, so those parts are modelled from the specification document
(shallow embedding).  Humidity values are modelled as rationals (`ℚ`): the
claims under study are about clamping, quantisation, ordering and
persistence, none of which depends on floating-point rounding error.
`NaN` (used by the entity as the "unknown" sentinel for the current
humidity) is modelled by `Option ℚ` with `none` standing for `NaN`.
-/

/-- Modelled from the spec: `humidifier_mode.h` is not in the sources.  The
spec's examples use the mode set `{OFF, ON, AUTO}`; the header guarantees the
constant `HUMIDIFIER_MODE_OFF` exists.  Each mode has a small unsigned
one-byte code (`mode_code`). -/
inductive HumidifierMode where
  | HUMIDIFIER_MODE_OFF
  | HUMIDIFIER_MODE_ON
  | HUMIDIFIER_MODE_AUTO
  deriving DecidableEq, Repr

/-- Modelled from the spec: the action enum of `humidifier_mode.h` is not in
the sources; the header guarantees `HUMIDIFIER_ACTION_OFF` exists and the
spec describes the action as "derived operational state, e.g. idle/active". -/
inductive HumidifierAction where
  | HUMIDIFIER_ACTION_OFF
  | HUMIDIFIER_ACTION_IDLE
  | HUMIDIFIER_ACTION_RUNNING
  deriving DecidableEq, Repr

/-- The small unsigned integer code persisted for a mode (one per supported
mode, fitting in one byte). -/
def mode_code : HumidifierMode → Nat
  | .HUMIDIFIER_MODE_OFF => 0
  | .HUMIDIFIER_MODE_ON => 1
  | .HUMIDIFIER_MODE_AUTO => 2

/-- Modelled from the spec: canonical string representation of a mode, used
by the string overload of `set_mode`. -/
def humidifier_mode_from_string (s : String) : Option HumidifierMode :=
  if s = "OFF" then some .HUMIDIFIER_MODE_OFF
  else if s = "ON" then some .HUMIDIFIER_MODE_ON
  else if s = "AUTO" then some .HUMIDIFIER_MODE_AUTO
  else none

/-- Modelled from the spec: `humidifier_traits.h` is not in the sources.
The Capability Descriptor carries the supported-mode set, the visual
minimum/maximum humidity and the quantisation steps (the header's
`set_visual_humidity_step_override(float target, float current)` shows a
target step and a current step). -/
structure HumidifierTraits where
  supported_modes : List HumidifierMode
  visual_min_humidity : ℚ
  visual_max_humidity : ℚ
  visual_target_humidity_step : ℚ
  visual_current_humidity_step : ℚ
  deriving DecidableEq, Repr

def HumidifierTraits.supports_mode (t : HumidifierTraits) (m : HumidifierMode) : Bool :=
  t.supported_modes.contains m

/-- The state persisted for a humidifier device
(`HumidifierDeviceRestoreState` in the header): current mode and target
humidity. -/
structure HumidifierDeviceRestoreState where
  mode : HumidifierMode
  target_humidity : ℚ
  deriving DecidableEq, Repr

/-- Modelled from the spec: the restore-state version tag is carried by the
caller next to the record (`RESTORE_STATE_VERSION` mentioned in the header
comment); its concrete value is irrelevant, only equality matters. -/
def RESTORE_STATE_VERSION : Nat := 1

/-- Size in bytes of the packed persisted record: 1 byte of mode code plus a
4-byte IEEE-754 single-precision target value, no padding. -/
def RESTORE_STATE_SIZE : Nat := 5

/-- Modelled from the spec: a stored blob in the preferences backend: the
externally supplied version tag, the record size, and the decoded record. -/
structure StoredBlob where
  version : Nat
  size : Nat
  record : HumidifierDeviceRestoreState
  deriving DecidableEq, Repr

/-- The persistence slot handle (`ESPPreferenceObject rtc_` in the header):
either empty or holding one stored blob. -/
structure ESPPreferenceObject where
  slot : Option StoredBlob
  deriving DecidableEq, Repr

/-- Observable events of one dispatch/publication, used to state the
ordering guarantees: warnings from validation, the i-th registered control
(pre-mutation) callback firing, the device-specific `control` handler
running, the i-th registered state callback firing, and a persistence write
attempt (with its success flag). -/
inductive HumidifierEvent where
  | warning
  | controlCb (i : Nat)
  | control
  | stateCb (i : Nat)
  | save (ok : Bool)
  deriving DecidableEq, Repr

def HumidifierEvent.isControlCb : HumidifierEvent → Bool
  | .controlCb _ => true
  | _ => false

def HumidifierEvent.isStateCb : HumidifierEvent → Bool
  | .stateCb _ => true
  | _ => false

/-- The `Humidifier` entity (header lines 88-182).  Callbacks are modelled
by the number registered: the i-th registered callback (registration order)
is identified by its index `i < n`.  `current_humidity : Option ℚ` uses
`none` for the `NAN` sentinel.  `base_traits` stands for the result of the
pure virtual `traits()` method, constant during execution. -/
structure Humidifier where
  mode : HumidifierMode
  action : HumidifierAction
  current_humidity : Option ℚ
  target_humidity : ℚ
  base_traits : HumidifierTraits
  visual_min_humidity_override_ : Option ℚ
  visual_max_humidity_override_ : Option ℚ
  visual_target_humidity_step_override_ : Option ℚ
  visual_current_humidity_step_override_ : Option ℚ
  n_control_callbacks : Nat
  n_state_callbacks : Nat
  deriving DecidableEq, Repr

/-- The `Humidifier()` constructor (header lines 90-104): `mode`, `action`
and `current_humidity` have member initializers (`HUMIDIFIER_MODE_OFF`,
`HUMIDIFIER_ACTION_OFF`, `NAN`); `target_humidity` sits inside an anonymous
union with no initializer, so it starts with whatever the memory held —
modelled by the arbitrary `uninitialized_target` argument.  `base` stands
for the derived class's constant `traits()`. -/
def Humidifier.construct (base : HumidifierTraits) (uninitialized_target : ℚ) : Humidifier where
  mode := .HUMIDIFIER_MODE_OFF
  action := .HUMIDIFIER_ACTION_OFF
  current_humidity := none
  target_humidity := uninitialized_target
  base_traits := base
  visual_min_humidity_override_ := none
  visual_max_humidity_override_ := none
  visual_target_humidity_step_override_ := none
  visual_current_humidity_step_override_ := none
  n_control_callbacks := 0
  n_state_callbacks := 0

def Humidifier.set_visual_min_humidity_override (h : Humidifier) (v : ℚ) : Humidifier :=
  { h with visual_min_humidity_override_ := some v }

def Humidifier.set_visual_max_humidity_override (h : Humidifier) (v : ℚ) : Humidifier :=
  { h with visual_max_humidity_override_ := some v }

def Humidifier.set_visual_humidity_step_override (h : Humidifier) (target current : ℚ) :
    Humidifier :=
  { h with visual_target_humidity_step_override_ := some target,
           visual_current_humidity_step_override_ := some current }

def Humidifier.add_on_control_callback (h : Humidifier) : Humidifier :=
  { h with n_control_callbacks := h.n_control_callbacks + 1 }

def Humidifier.add_on_state_callback (h : Humidifier) : Humidifier :=
  { h with n_state_callbacks := h.n_state_callbacks + 1 }

/-- Modelled from the spec: `Humidifier::get_traits()` (declared header
lines 135-140, body not in the sources).  Effective Capability Descriptor:
start from the device-implemented base descriptor and substitute each
instance override that is present (spec 4.1/4.3 composition rule). -/
def Humidifier.get_traits (h : Humidifier) : HumidifierTraits :=
  let t := h.base_traits
  let t := match h.visual_min_humidity_override_ with
    | some v => { t with visual_min_humidity := v }
    | none => t
  let t := match h.visual_max_humidity_override_ with
    | some v => { t with visual_max_humidity := v }
    | none => t
  let t := match h.visual_target_humidity_step_override_ with
    | some v => { t with visual_target_humidity_step := v }
    | none => t
  let t := match h.visual_current_humidity_step_override_ with
    | some v => { t with visual_current_humidity_step := v }
    | none => t
  t

/-- A control request (`HumidifierCall`, header lines 33-59).  `parent_`
models the `Humidifier *const` binding established at construction; the two
optional fields model `optional<HumidifierMode> mode_` and
`optional<float> target_humidity_`. -/
structure HumidifierCall where
  parent_ : Nat
  mode_ : Option HumidifierMode
  target_humidity_ : Option ℚ
  deriving DecidableEq, Repr

/-- `Humidifier::make_call()`: a fresh request bound to this entity (the
entity is identified by its address, modelled as a `Nat` id), with both
fields absent. -/
def Humidifier.make_call (parent : Nat) : HumidifierCall :=
  { parent_ := parent, mode_ := none, target_humidity_ := none }

def HumidifierCall.set_mode (c : HumidifierCall) (mode : HumidifierMode) : HumidifierCall :=
  { c with mode_ := some mode }

def HumidifierCall.set_mode_opt (c : HumidifierCall) (mode : Option HumidifierMode) :
    HumidifierCall :=
  { c with mode_ := mode }

/-- Modelled from the spec: the string overload of `set_mode` resolves the
name against the canonical representation; on no match it leaves the desired
mode as it was and reports a warning (spec 4.2). -/
def HumidifierCall.set_mode_string (c : HumidifierCall) (mode : String) : HumidifierCall :=
  match humidifier_mode_from_string mode with
  | some m => { c with mode_ := some m }
  | none => c

def HumidifierCall.set_target_humidity (c : HumidifierCall) (target_humidity : ℚ) :
    HumidifierCall :=
  { c with target_humidity_ := some target_humidity }

def HumidifierCall.set_target_humidity_opt (c : HumidifierCall)
    (target_humidity : Option ℚ) : HumidifierCall :=
  { c with target_humidity_ := target_humidity }

def HumidifierCall.get_mode (c : HumidifierCall) : Option HumidifierMode := c.mode_

def HumidifierCall.get_target_humidity (c : HumidifierCall) : Option ℚ := c.target_humidity_

/-- Rounding a value to the nearest multiple of `step` (round half away from
zero at the midpoint is irrelevant to the claims; Mathlib's `round` is
used). -/
def round_to_nearest_step (value step : ℚ) : ℚ :=
  ((round (value / step) : ℤ) : ℚ) * step

/-- `std::clamp(value, lo, hi)`. -/
def clampf (value lo hi : ℚ) : ℚ :=
  min (max value lo) hi

/-- Modelled from the spec: `HumidifierCall::validate_` (declared header
line 54, body not in the sources).  Spec 4.2 step (1): a desired mode not in
the effective supported set is cleared with a warning; a desired target is
clamped into the effective `[min, max]` and then rounded to the nearest
multiple of the effective target step (spec 7: "clamped and quantized").
Returns the validated request and the warning events emitted. -/
def HumidifierCall.validate_ (c : HumidifierCall) (traits : HumidifierTraits) :
    HumidifierCall × List HumidifierEvent :=
  let mv : Option HumidifierMode × List HumidifierEvent :=
    match c.mode_ with
    | some m =>
      if traits.supports_mode m then (some m, []) else (none, [HumidifierEvent.warning])
    | none => (none, [])
  let tv : Option ℚ :=
    match c.target_humidity_ with
    | some t =>
      some (round_to_nearest_step
        (clampf t traits.visual_min_humidity traits.visual_max_humidity)
        traits.visual_target_humidity_step)
    | none => none
  ({ c with mode_ := mv.1, target_humidity_ := tv }, mv.2)

/-- Modelled from the spec: `Humidifier::save_state_` (declared header line
171, body not in the sources).  Writes the record `{current mode, current
target}` with the caller-supplied version tag to the persistence slot; a
failing write (spec 4.3) is reported and leaves the slot as it was, with no
retry within the call.  `write_ok` models whether the backend accepts the
write. -/
def Humidifier.save_state_ (e : Humidifier) (rtc : ESPPreferenceObject) (write_ok : Bool) :
    ESPPreferenceObject × List HumidifierEvent :=
  if write_ok then
    ({ slot := some { version := RESTORE_STATE_VERSION, size := RESTORE_STATE_SIZE,
                      record := { mode := e.mode, target_humidity := e.target_humidity } } },
     [HumidifierEvent.save true])
  else
    (rtc, [HumidifierEvent.save false])

/-- Modelled from the spec: `Humidifier::publish_state` (declared header
lines 128-133, body not in the sources).  Spec 4.3: (1) invoke every
registered state observer in registration order, (2) write the persisted
record via `save_state_`.  Returns the (unchanged) entity, the new slot
content and the events in order. -/
def Humidifier.publish_state (e : Humidifier) (rtc : ESPPreferenceObject) (write_ok : Bool) :
    Humidifier × ESPPreferenceObject × List HumidifierEvent :=
  let state_events := (List.range e.n_state_callbacks).map HumidifierEvent.stateCb
  let sv := e.save_state_ rtc write_ok
  (e, sv.1, state_events ++ sv.2)

/-- Modelled from the spec: `Humidifier::restore_state_` (declared header
line 167, body not in the sources).  Reads the persistence slot; absent if
no record exists or the integrity check (size or version tag) fails;
otherwise the stored record.  It only reads the slot bound to the entity
and never aborts (total function). -/
def Humidifier.restore_state_ (_self : Humidifier) (rtc : ESPPreferenceObject) :
    Option HumidifierDeviceRestoreState :=
  match rtc.slot with
  | none => none
  | some blob =>
    if blob.version = RESTORE_STATE_VERSION ∧ blob.size = RESTORE_STATE_SIZE then
      some blob.record
    else none

/-- Modelled from the spec: the device-specific `control` handler obligation
(spec 4.3): read the dispatched request's set fields, apply them to the
entity state, leaving unset fields unchanged. -/
def Humidifier.control_generic (e : Humidifier) (c : HumidifierCall) : Humidifier :=
  { e with mode := c.mode_.getD e.mode,
           target_humidity := c.target_humidity_.getD e.target_humidity }

/-- Modelled from the spec: `HumidifierCall::perform` (declared header line
48, body not in the sources).  Spec 4.2 dispatch order: (1) `validate_`,
(2) the registered control (pre-mutation) callbacks in registration order,
(3) the device-specific handler, which applies the remaining set fields and
calls `publish_state` before returning.  Returns the entity after the
handler, the persistence slot after the publication, and the event trace. -/
def HumidifierCall.perform (c : HumidifierCall) (e : Humidifier) (rtc : ESPPreferenceObject)
    (write_ok : Bool) : Humidifier × ESPPreferenceObject × List HumidifierEvent :=
  let v := c.validate_ e.get_traits
  let control_events := (List.range e.n_control_callbacks).map HumidifierEvent.controlCb
  let e1 := e.control_generic v.1
  let pub := e1.publish_state rtc write_ok
  (pub.1, pub.2.1, v.2 ++ control_events ++ [HumidifierEvent.control] ++ pub.2.2)

/-- A heap of entities with their persistence slots, addressed by id;
used to state that a request dispatches to its bound entity only. -/
def HumidifierWorld : Type := Nat → Humidifier × ESPPreferenceObject

/-- `perform` through the `parent_` binding: only the bound entity's cell is
touched. -/
def HumidifierCall.perform_world (c : HumidifierCall) (w : HumidifierWorld)
    (write_ok : Bool) : HumidifierWorld :=
  fun i =>
    if i = c.parent_ then
      let r := c.perform (w c.parent_).1 (w c.parent_).2 write_ok
      (r.1, r.2.1)
    else w i

/-- The four bytes of a 32-bit word, least significant first
(platform-native order on the little-endian targets the component runs
on). -/
def word32_bytes (bits : Nat) : List Nat :=
  [bits % 256, bits / 2 ^ 8 % 256, bits / 2 ^ 16 % 256, bits / 2 ^ 24 % 256]

def word32_of_bytes : List Nat → Nat
  | [b0, b1, b2, b3] => b0 + 2 ^ 8 * b1 + 2 ^ 16 * b2 + 2 ^ 24 * b3
  | _ => 0

/-- Modelled from the spec: the byte layout of the packed
`HumidifierDeviceRestoreState` (header lines 61-71, `__attribute__((packed))`;
spec 6): byte 0 the one-byte mode code, bytes 1..4 the IEEE-754 32-bit
target value.  The float's 32-bit pattern is abstracted as `target_bits`
(float semantics are not needed for the layout claims). -/
def serialize_restore_state (m : HumidifierMode) (target_bits : Nat) : List Nat :=
  mode_code m :: word32_bytes target_bits

/-- The setter calls available on a `HumidifierCall` (all five overloads of
`set_mode` / `set_target_humidity`). -/
inductive SetterOp where
  | setMode (m : HumidifierMode)
  | setModeOpt (m : Option HumidifierMode)
  | setModeStr (s : String)
  | setTarget (t : ℚ)
  | setTargetOpt (t : Option ℚ)

def HumidifierCall.apply_setter (c : HumidifierCall) : SetterOp → HumidifierCall
  | .setMode m => c.set_mode m
  | .setModeOpt m => c.set_mode_opt m
  | .setModeStr s => c.set_mode_string s
  | .setTarget t => c.set_target_humidity t
  | .setTargetOpt t => c.set_target_humidity_opt t

/-- An arbitrary chain of setter calls on one request object. -/
def HumidifierCall.apply_setters (c : HumidifierCall) (ops : List SetterOp) : HumidifierCall :=
  ops.foldl HumidifierCall.apply_setter c

/-! ### Concrete fixtures used by witnesses and counterexamples -/

/-- The capability descriptor of the spec's running example: modes
`{OFF, ON, AUTO}`, range `[30, 70]`, step `5`. -/
def traitsW : HumidifierTraits :=
  { supported_modes := [HumidifierMode.HUMIDIFIER_MODE_OFF, HumidifierMode.HUMIDIFIER_MODE_ON,
      HumidifierMode.HUMIDIFIER_MODE_AUTO],
    visual_min_humidity := 30, visual_max_humidity := 70,
    visual_target_humidity_step := 5, visual_current_humidity_step := 1 }

/-- A descriptor whose minimum (2) is not a multiple of the step (5). -/
def traitsUnaligned : HumidifierTraits :=
  { supported_modes := [], visual_min_humidity := 2, visual_max_humidity := 10,
    visual_target_humidity_step := 5, visual_current_humidity_step := 1 }

/-- A descriptor supporting only the OFF mode. -/
def traitsOffOnly : HumidifierTraits :=
  { supported_modes := [HumidifierMode.HUMIDIFIER_MODE_OFF],
    visual_min_humidity := 30, visual_max_humidity := 70,
    visual_target_humidity_step := 5, visual_current_humidity_step := 1 }

def eW : Humidifier := Humidifier.construct traitsW 0

/-! ### Helper lemmas -/

lemma round_le_of_le {x y : ℚ} (h : x ≤ y) : round x ≤ round y := by
  rw [round_eq, round_eq]
  exact Int.floor_mono (by linarith)

/-- Rounding a multiple of the step to the nearest multiple of the step is
the identity. -/
lemma round_to_nearest_step_mul (k : ℤ) (step : ℚ) (hs : step ≠ 0) :
    round_to_nearest_step ((k : ℚ) * step) step = (k : ℚ) * step := by
  unfold round_to_nearest_step
  rw [mul_div_cancel_right₀ _ hs, round_intCast]

/-- Clamping into step-aligned bounds commutes with rounding to the nearest
step: the two validation phrasings of the spec agree whenever the effective
minimum and maximum are integer multiples of the effective step. -/
lemma round_clamp_comm (t step : ℚ) (a b : ℤ) (hs : 0 < step) (hab : a ≤ b) :
    round_to_nearest_step (clampf t ((a : ℚ) * step) ((b : ℚ) * step)) step =
      clampf (round_to_nearest_step t step) ((a : ℚ) * step) ((b : ℚ) * step) := by
  have hs0 : step ≠ 0 := ne_of_gt hs
  have hcast : (a : ℚ) ≤ (b : ℚ) := by exact_mod_cast hab
  have hlohi : (a : ℚ) * step ≤ (b : ℚ) * step := mul_le_mul_of_nonneg_right hcast hs.le
  rcases le_total t ((a : ℚ) * step) with h1 | h1
  · have hta : t / step ≤ (a : ℚ) := by rw [div_le_iff₀ hs]; linarith
    have hr : round (t / step) ≤ a := by
      have h := round_le_of_le hta
      rwa [round_intCast] at h
    have hrq : ((round (t / step) : ℤ) : ℚ) * step ≤ (a : ℚ) * step :=
      mul_le_mul_of_nonneg_right (by exact_mod_cast hr) hs.le
    have hL : round_to_nearest_step (clampf t ((a : ℚ) * step) ((b : ℚ) * step)) step =
        (a : ℚ) * step := by
      unfold clampf
      rw [max_eq_right h1, min_eq_left hlohi]
      exact round_to_nearest_step_mul a step hs0
    have hR : clampf (round_to_nearest_step t step) ((a : ℚ) * step) ((b : ℚ) * step) =
        (a : ℚ) * step := by
      unfold clampf round_to_nearest_step
      rw [max_eq_right hrq, min_eq_left hlohi]
    rw [hL, hR]
  · rcases le_total t ((b : ℚ) * step) with h2 | h2
    · have h1q : (a : ℚ) ≤ t / step := by rw [le_div_iff₀ hs]; linarith
      have h2q : t / step ≤ (b : ℚ) := by rw [div_le_iff₀ hs]; linarith
      have hra : a ≤ round (t / step) := by
        have h := round_le_of_le h1q
        rwa [round_intCast] at h
      have hrb : round (t / step) ≤ b := by
        have h := round_le_of_le h2q
        rwa [round_intCast] at h
      have hraq : (a : ℚ) * step ≤ ((round (t / step) : ℤ) : ℚ) * step :=
        mul_le_mul_of_nonneg_right (by exact_mod_cast hra) hs.le
      have hrbq : ((round (t / step) : ℤ) : ℚ) * step ≤ (b : ℚ) * step :=
        mul_le_mul_of_nonneg_right (by exact_mod_cast hrb) hs.le
      have hL : round_to_nearest_step (clampf t ((a : ℚ) * step) ((b : ℚ) * step)) step =
          ((round (t / step) : ℤ) : ℚ) * step := by
        unfold clampf
        rw [max_eq_left h1, min_eq_left h2]
        rfl
      have hR : clampf (round_to_nearest_step t step) ((a : ℚ) * step) ((b : ℚ) * step) =
          ((round (t / step) : ℤ) : ℚ) * step := by
        unfold clampf round_to_nearest_step
        rw [max_eq_left hraq, min_eq_left hrbq]
      rw [hL, hR]
    · have htb : (b : ℚ) ≤ t / step := by rw [le_div_iff₀ hs]; linarith
      have hr : b ≤ round (t / step) := by
        have h := round_le_of_le htb
        rwa [round_intCast] at h
      have hrq : (b : ℚ) * step ≤ ((round (t / step) : ℤ) : ℚ) * step :=
        mul_le_mul_of_nonneg_right (by exact_mod_cast hr) hs.le
      have hL : round_to_nearest_step (clampf t ((a : ℚ) * step) ((b : ℚ) * step)) step =
          (b : ℚ) * step := by
        unfold clampf
        rw [max_eq_left (le_trans hlohi h2), min_eq_right h2]
        exact round_to_nearest_step_mul b step hs0
      have hR : clampf (round_to_nearest_step t step) ((a : ℚ) * step) ((b : ℚ) * step) =
          (b : ℚ) * step := by
        unfold clampf round_to_nearest_step
        rw [max_eq_left (le_trans hlohi hrq), min_eq_right hrq]
      rw [hL, hR]

/-- The target field produced by `validate_`. -/
lemma validate_target (c : HumidifierCall) (tr : HumidifierTraits) (t : ℚ)
    (ht : c.target_humidity_ = some t) :
    (c.validate_ tr).1.target_humidity_ =
      some (round_to_nearest_step (clampf t tr.visual_min_humidity tr.visual_max_humidity)
        tr.visual_target_humidity_step) := by
  unfold HumidifierCall.validate_
  simp [ht]

/-- Claim C1 (amended): whenever the effective minimum and maximum are
integer multiples of a positive effective step, the target accepted by
validation equals `clamp(round_to_nearest_step(t, step), min, max)`, and
this coincides with clamping into `[min, max]` followed by rounding to the
nearest multiple of the step. -/
theorem C1_validated_target (e : Humidifier) (c : HumidifierCall) (t : ℚ) (a b : ℤ)
    (ht : c.target_humidity_ = some t)
    (hs : 0 < e.get_traits.visual_target_humidity_step)
    (ha : e.get_traits.visual_min_humidity = (a : ℚ) * e.get_traits.visual_target_humidity_step)
    (hb : e.get_traits.visual_max_humidity = (b : ℚ) * e.get_traits.visual_target_humidity_step)
    (hab : a ≤ b) :
    (c.validate_ e.get_traits).1.target_humidity_ =
      some (clampf (round_to_nearest_step t e.get_traits.visual_target_humidity_step)
        e.get_traits.visual_min_humidity e.get_traits.visual_max_humidity) ∧
    clampf (round_to_nearest_step t e.get_traits.visual_target_humidity_step)
        e.get_traits.visual_min_humidity e.get_traits.visual_max_humidity =
      round_to_nearest_step
        (clampf t e.get_traits.visual_min_humidity e.get_traits.visual_max_humidity)
        e.get_traits.visual_target_humidity_step := by
  have key := round_clamp_comm t e.get_traits.visual_target_humidity_step a b hs hab
  rw [validate_target c e.get_traits t ht]
  constructor
  · rw [ha, hb, key]
  · rw [ha, hb, key]
/-- Claim C1 counterexample: with effective bounds `[2, 10]` and step `5`
(minimum not a multiple of the step) and requested target `0`, validation
(clamp then round) accepts `0`, while the claimed formula
`clamp(round_to_nearest_step(0, 5), 2, 10)` yields `2`. -/
theorem C1_counterexample :
    (((Humidifier.make_call 0).set_target_humidity 0).validate_
        (Humidifier.construct traitsUnaligned 0).get_traits).1.target_humidity_ = some 0 ∧
    clampf (round_to_nearest_step 0
        (Humidifier.construct traitsUnaligned 0).get_traits.visual_target_humidity_step)
      (Humidifier.construct traitsUnaligned 0).get_traits.visual_min_humidity
      (Humidifier.construct traitsUnaligned 0).get_traits.visual_max_humidity = 2 ∧
    some (0 : ℚ) ≠ some (2 : ℚ) := by
  refine ⟨?_, ?_, by norm_num⟩
  · norm_num [HumidifierCall.validate_, Humidifier.make_call, HumidifierCall.set_target_humidity,
      Humidifier.get_traits, Humidifier.construct, traitsUnaligned, round_to_nearest_step,
      clampf, round_eq, min_def, max_def]
  · norm_num [Humidifier.get_traits, Humidifier.construct, traitsUnaligned,
      round_to_nearest_step, clampf, round_eq, min_def, max_def]

theorem C1_validated_target_witness :
    (0 : ℚ) < eW.get_traits.visual_target_humidity_step ∧
    eW.get_traits.visual_min_humidity =
      ((6 : ℤ) : ℚ) * eW.get_traits.visual_target_humidity_step ∧
    (((Humidifier.make_call 0).set_target_humidity 42).validate_ eW.get_traits).1.target_humidity_ =
      some (clampf (round_to_nearest_step 42 eW.get_traits.visual_target_humidity_step)
        eW.get_traits.visual_min_humidity eW.get_traits.visual_max_humidity) :=
  ⟨by norm_num [eW, Humidifier.get_traits, Humidifier.construct, traitsW],
   by norm_num [eW, Humidifier.get_traits, Humidifier.construct, traitsW],
   (C1_validated_target eW ((Humidifier.make_call 0).set_target_humidity 42) 42 6 14 rfl
      (by norm_num [eW, Humidifier.get_traits, Humidifier.construct, traitsW])
      (by norm_num [eW, Humidifier.get_traits, Humidifier.construct, traitsW])
      (by norm_num [eW, Humidifier.get_traits, Humidifier.construct, traitsW])
      (by decide)).1⟩
/-- Claim C9: immediately after construction the entity's mode is
`HUMIDIFIER_MODE_OFF`, its action is `HUMIDIFIER_ACTION_OFF`, its current
humidity is the `NaN` sentinel, and its target humidity (a union member
with no initializer) is exactly whatever value the underlying memory held:
no fixed value is guaranteed. -/
theorem C9_construction_defaults (base : HumidifierTraits) (junk : ℚ) :
    (Humidifier.construct base junk).mode = HumidifierMode.HUMIDIFIER_MODE_OFF ∧
    (Humidifier.construct base junk).action = HumidifierAction.HUMIDIFIER_ACTION_OFF ∧
    (Humidifier.construct base junk).current_humidity = none ∧
    (Humidifier.construct base junk).target_humidity = junk :=
  ⟨rfl, rfl, rfl, rfl⟩

/-- Claim C5: the serialized persisted record is exactly
`RESTORE_STATE_SIZE = 5` bytes with no padding: byte 0 is the one-byte mode
code, bytes 1..4 are the 32-bit target-value pattern (recoverable from those
four bytes), and every emitted byte fits in one byte. -/
theorem C5_record_layout (m : HumidifierMode) (target_bits : Nat) :
    (serialize_restore_state m target_bits).length = RESTORE_STATE_SIZE ∧
    (serialize_restore_state m target_bits).head? = some (mode_code m) ∧
    mode_code m < 256 ∧
    (serialize_restore_state m target_bits).drop 1 = word32_bytes target_bits ∧
    ((serialize_restore_state m target_bits).drop 1).length = 4 ∧
    word32_of_bytes ((serialize_restore_state m target_bits).drop 1) =
      target_bits % 2 ^ 32 ∧
    ∀ byte ∈ serialize_restore_state m target_bits, byte < 256 := by
  refine ⟨rfl, rfl, by cases m <;> decide, rfl, rfl, ?_, ?_⟩
  · show word32_of_bytes (word32_bytes target_bits) = target_bits % 2 ^ 32
    unfold word32_of_bytes word32_bytes
    norm_num
    omega
  · intro byte hb
    unfold serialize_restore_state word32_bytes at hb
    simp only [List.mem_cons, List.not_mem_nil, or_false] at hb
    rcases hb with h | h | h | h | h <;> subst h
    · cases m <;> decide
    all_goals omega
/-- Claim C6: effective-trait composition: each visual override field, when
present, replaces the corresponding base value and, when absent, leaves the
base value; the supported-mode set is taken from the base descriptor.  In
particular a minimum override of 35 over a base minimum of 30 makes
`get_traits()` report 35. -/
theorem C6_override_composition (e : Humidifier) :
    (e.get_traits).visual_min_humidity =
      e.visual_min_humidity_override_.getD e.base_traits.visual_min_humidity ∧
    (e.get_traits).visual_max_humidity =
      e.visual_max_humidity_override_.getD e.base_traits.visual_max_humidity ∧
    (e.get_traits).visual_target_humidity_step =
      e.visual_target_humidity_step_override_.getD e.base_traits.visual_target_humidity_step ∧
    (e.get_traits).visual_current_humidity_step =
      e.visual_current_humidity_step_override_.getD e.base_traits.visual_current_humidity_step ∧
    (e.get_traits).supported_modes = e.base_traits.supported_modes ∧
    ((Humidifier.construct traitsW 0).set_visual_min_humidity_override 35).get_traits.visual_min_humidity = 35 := by
  obtain ⟨md, ac, cur, tgt, base, o1, o2, o3, o4, nc, ns⟩ := e
  refine ⟨?_, ?_, ?_, ?_, ?_, rfl⟩ <;>
    cases o1 <;> cases o2 <;> cases o3 <;> cases o4 <;> rfl
/-- Claim C7: `restore_state_` returns `none` exactly when the persistence
slot holds no record or the stored record fails the integrity check (wrong
version tag or wrong size); when the slot holds a record passing the check
it returns that record.  It is a total function: a miss or corruption is
surfaced only as absence. -/
theorem C7_restore_state (self : Humidifier) (rtc : ESPPreferenceObject) :
    (rtc.slot = none → self.restore_state_ rtc = none) ∧
    (∀ blob, rtc.slot = some blob → blob.version = RESTORE_STATE_VERSION →
      blob.size = RESTORE_STATE_SIZE → self.restore_state_ rtc = some blob.record) ∧
    (∀ blob, rtc.slot = some blob →
      (blob.version ≠ RESTORE_STATE_VERSION ∨ blob.size ≠ RESTORE_STATE_SIZE) →
      self.restore_state_ rtc = none) := by
  refine ⟨?_, ?_, ?_⟩
  · intro h
    unfold Humidifier.restore_state_
    rw [h]
  · intro blob hs hv hz
    unfold Humidifier.restore_state_
    rw [hs]
    simp [hv, hz]
  · intro blob hs hbad
    unfold Humidifier.restore_state_
    rw [hs]
    rcases hbad with h | h <;> simp [h]

def recW : HumidifierDeviceRestoreState :=
  { mode := HumidifierMode.HUMIDIFIER_MODE_ON, target_humidity := 40 }

def blobW : StoredBlob :=
  { version := RESTORE_STATE_VERSION, size := RESTORE_STATE_SIZE, record := recW }

def blobBad : StoredBlob :=
  { version := RESTORE_STATE_VERSION + 1, size := RESTORE_STATE_SIZE, record := recW }

theorem C7_restore_state_witness :
    eW.restore_state_ { slot := some blobW } = some recW ∧
    eW.restore_state_ { slot := none } = none ∧
    eW.restore_state_ { slot := some blobBad } = none :=
  ⟨(C7_restore_state eW { slot := some blobW }).2.1 blobW rfl rfl rfl,
   (C7_restore_state eW { slot := none }).1 rfl,
   (C7_restore_state eW { slot := some blobBad }).2.2 blobBad rfl (Or.inl (by decide))⟩

/-- Claim C8: a failed persistence write inside `publish_state` leaves the
in-memory entity (mode, action, current and target humidity) untouched and
the slot as it was, the state callbacks still fired (exactly one failed
write attempt follows them, with no retry in the same call), and the next
`publish_state` attempts the write again and, succeeding, stores the current
record. -/
theorem C8_write_failure (e : Humidifier) (rtc : ESPPreferenceObject) :
    (e.publish_state rtc false).1 = e ∧
    (e.publish_state rtc false).1.mode = e.mode ∧
    (e.publish_state rtc false).1.action = e.action ∧
    (e.publish_state rtc false).1.current_humidity = e.current_humidity ∧
    (e.publish_state rtc false).1.target_humidity = e.target_humidity ∧
    (e.publish_state rtc false).2.1 = rtc ∧
    (e.publish_state rtc false).2.2 =
      (List.range e.n_state_callbacks).map HumidifierEvent.stateCb
        ++ [HumidifierEvent.save false] ∧
    List.count (HumidifierEvent.save false) ((e.publish_state rtc false).2.2) = 1 ∧
    (e.publish_state ((e.publish_state rtc false).2.1) true).2.1 =
      { slot := some { version := RESTORE_STATE_VERSION, size := RESTORE_STATE_SIZE,
                       record := { mode := e.mode,
                                   target_humidity := e.target_humidity } } } := by
  refine ⟨rfl, rfl, rfl, rfl, rfl, rfl, rfl, ?_, rfl⟩
  show List.count (HumidifierEvent.save false)
    ((List.range e.n_state_callbacks).map HumidifierEvent.stateCb
      ++ [HumidifierEvent.save false]) = 1
  rw [List.count_append]
  have h0 : List.count (HumidifierEvent.save false)
      ((List.range e.n_state_callbacks).map HumidifierEvent.stateCb) = 0 := by
    rw [List.count_eq_zero]
    simp
  rw [h0]
  rfl
lemma perform_trace (c : HumidifierCall) (e : Humidifier) (rtc : ESPPreferenceObject)
    (ok : Bool) :
    (c.perform e rtc ok).2.2 =
      (c.validate_ e.get_traits).2
        ++ (List.range e.n_control_callbacks).map HumidifierEvent.controlCb
        ++ [HumidifierEvent.control]
        ++ ((List.range e.n_state_callbacks).map HumidifierEvent.stateCb
             ++ [HumidifierEvent.save ok]) := by
  cases ok <;> rfl

lemma validate_events (c : HumidifierCall) (tr : HumidifierTraits) :
    (c.validate_ tr).2 = [] ∨ (c.validate_ tr).2 = [HumidifierEvent.warning] := by
  unfold HumidifierCall.validate_
  cases hm : c.mode_ with
  | none => left; rfl
  | some m =>
    by_cases h : tr.supports_mode m
    · left; simp [h]
    · right; simp [h]

lemma count_range (i n : Nat) : List.count i (List.range n) = if i < n then 1 else 0 := by
  by_cases h : i < n
  · rw [if_pos h]
    exact List.count_eq_one_of_mem (List.nodup_range n) (List.mem_range.mpr h)
  · rw [if_neg h]
    exact List.count_eq_zero_of_not_mem (by simp [List.mem_range, h])

lemma controlCb_injective : Function.Injective HumidifierEvent.controlCb := by
  intro a b h
  injection h

lemma stateCb_injective : Function.Injective HumidifierEvent.stateCb := by
  intro a b h
  injection h

/-- Claim C3: in every dispatch, all registered control (pre-mutation)
callbacks fire in registration order strictly before the device handler
runs, no state callback fires before the handler, and within the
publication triggered by the handler all registered state callbacks fire in
registration order strictly before the persistence write attempt of that
same publication; each callback fires exactly once per dispatch. -/
theorem C3_callback_ordering (c : HumidifierCall) (e : Humidifier)
    (rtc : ESPPreferenceObject) (ok : Bool) :
    ∃ pre post,
      (c.perform e rtc ok).2.2 = pre ++ HumidifierEvent.control :: post ∧
      List.filter HumidifierEvent.isControlCb pre =
        (List.range e.n_control_callbacks).map HumidifierEvent.controlCb ∧
      List.filter HumidifierEvent.isStateCb pre = [] ∧
      post = (List.range e.n_state_callbacks).map HumidifierEvent.stateCb
        ++ [HumidifierEvent.save ok] ∧
      (∀ i, List.count (HumidifierEvent.controlCb i) ((c.perform e rtc ok).2.2) =
        if i < e.n_control_callbacks then 1 else 0) ∧
      (∀ i, List.count (HumidifierEvent.stateCb i) ((c.perform e rtc ok).2.2) =
        if i < e.n_state_callbacks then 1 else 0) := by
  refine ⟨(c.validate_ e.get_traits).2
      ++ (List.range e.n_control_callbacks).map HumidifierEvent.controlCb,
    (List.range e.n_state_callbacks).map HumidifierEvent.stateCb
      ++ [HumidifierEvent.save ok], ?_, ?_, ?_, rfl, ?_, ?_⟩
  · rw [perform_trace]
    simp
  · rw [List.filter_append]
    have h1 : List.filter HumidifierEvent.isControlCb (c.validate_ e.get_traits).2 = [] := by
      rcases validate_events c e.get_traits with h | h <;> rw [h] <;> rfl
    have h2 : List.filter HumidifierEvent.isControlCb
        ((List.range e.n_control_callbacks).map HumidifierEvent.controlCb) =
        (List.range e.n_control_callbacks).map HumidifierEvent.controlCb := by
      rw [List.filter_eq_self]
      intro a ha
      rcases List.mem_map.mp ha with ⟨j, _, rfl⟩
      rfl
    rw [h1, h2, List.nil_append]
  · rw [List.filter_append]
    have h1 : List.filter HumidifierEvent.isStateCb (c.validate_ e.get_traits).2 = [] := by
      rcases validate_events c e.get_traits with h | h <;> rw [h] <;> rfl
    have h2 : List.filter HumidifierEvent.isStateCb
        ((List.range e.n_control_callbacks).map HumidifierEvent.controlCb) = [] := by
      rw [List.filter_eq_nil_iff]
      intro a ha
      rcases List.mem_map.mp ha with ⟨j, _, rfl⟩
      simp [HumidifierEvent.isStateCb]
    rw [h1, h2, List.nil_append]
  · intro i
    rw [perform_trace]
    have hv : List.count (HumidifierEvent.controlCb i) (c.validate_ e.get_traits).2 = 0 := by
      rcases validate_events c e.get_traits with h | h <;> rw [h] <;> rfl
    rw [List.count_append, List.count_append, List.count_append, hv,
      List.count_map_of_injective _ _ controlCb_injective, count_range]
    have h3 : List.count (HumidifierEvent.controlCb i) [HumidifierEvent.control] = 0 := rfl
    have h4 : List.count (HumidifierEvent.controlCb i)
        ((List.range e.n_state_callbacks).map HumidifierEvent.stateCb
          ++ [HumidifierEvent.save ok]) = 0 := by
      rw [List.count_eq_zero]
      simp [HumidifierEvent.stateCb]
    rw [h3, h4]
    omega
  · intro i
    rw [perform_trace]
    have hv : List.count (HumidifierEvent.stateCb i) (c.validate_ e.get_traits).2 = 0 := by
      rcases validate_events c e.get_traits with h | h <;> rw [h] <;> rfl
    have h2 : List.count (HumidifierEvent.stateCb i)
        ((List.range e.n_control_callbacks).map HumidifierEvent.controlCb) = 0 := by
      rw [List.count_eq_zero]
      simp
    have h3 : List.count (HumidifierEvent.stateCb i) [HumidifierEvent.control] = 0 := rfl
    rw [List.count_append, List.count_append, List.count_append, List.count_append, hv, h2, h3,
      List.count_map_of_injective _ _ stateCb_injective, count_range]
    have h5 : List.count (HumidifierEvent.stateCb i) [HumidifierEvent.save ok] = 0 := by
      rw [List.count_eq_zero]
      simp
    rw [h5]
    omega
/-- Claim C4: when the requested mode is not in the effective supported set,
validation clears the mode field (the handler observes it as absent) and a
warning is emitted; the target field is still validated (clamped and
quantised) and the request is still dispatched to the handler; the entity's
mode after the dispatch is unchanged. -/
theorem C4_unsupported_mode (e : Humidifier) (rtc : ESPPreferenceObject) (ok : Bool)
    (m : HumidifierMode) (c : HumidifierCall)
    (hm : c.mode_ = some m)
    (hsup : e.get_traits.supports_mode m = false) :
    (c.validate_ e.get_traits).1.mode_ = none ∧
    HumidifierEvent.warning ∈ (c.validate_ e.get_traits).2 ∧
    (c.validate_ e.get_traits).1.target_humidity_ =
      c.target_humidity_.map (fun t => round_to_nearest_step
        (clampf t e.get_traits.visual_min_humidity e.get_traits.visual_max_humidity)
        e.get_traits.visual_target_humidity_step) ∧
    HumidifierEvent.control ∈ (c.perform e rtc ok).2.2 ∧
    (c.perform e rtc ok).1.mode = e.mode := by
  refine ⟨?_, ?_, ?_, ?_, ?_⟩
  · unfold HumidifierCall.validate_
    simp [hm, hsup]
  · unfold HumidifierCall.validate_
    simp [hm, hsup]
  · unfold HumidifierCall.validate_
    cases ht : c.target_humidity_ <;> simp [hm, hsup, ht]
  · rw [perform_trace]
    simp
  · show (c.validate_ e.get_traits).1.mode_.getD e.mode = e.mode
    unfold HumidifierCall.validate_
    simp [hm, hsup]

def eOffOnly : Humidifier := Humidifier.construct traitsOffOnly 0

def cAuto : HumidifierCall :=
  ((Humidifier.make_call 0).set_mode HumidifierMode.HUMIDIFIER_MODE_AUTO).set_target_humidity 42

theorem C4_unsupported_mode_witness :
    cAuto.mode_ = some HumidifierMode.HUMIDIFIER_MODE_AUTO ∧
    eOffOnly.get_traits.supports_mode HumidifierMode.HUMIDIFIER_MODE_AUTO = false ∧
    ((cAuto.validate_ eOffOnly.get_traits).1.mode_ = none ∧
      (cAuto.perform eOffOnly { slot := none } true).1.mode = eOffOnly.mode) :=
  ⟨rfl, rfl,
   ⟨(C4_unsupported_mode eOffOnly { slot := none } true HumidifierMode.HUMIDIFIER_MODE_AUTO
      cAuto rfl rfl).1,
    (C4_unsupported_mode eOffOnly { slot := none } true HumidifierMode.HUMIDIFIER_MODE_AUTO
      cAuto rfl rfl).2.2.2.2⟩⟩
/-- Claim C2 (amended): the dispatch/publish/restore round-trip is exact for
every supported mode `M` and every target `T` that validation leaves
unchanged, i.e. `T` within the effective bounds and an integer multiple of
the (nonzero) effective step; the freshly constructed entity bound to the
same slot then restores exactly `{M, T}`. -/
theorem C2_round_trip (e : Humidifier) (rtc : ESPPreferenceObject) (M : HumidifierMode)
    (T junk : ℚ) (base : HumidifierTraits) (k : ℤ) (pid : Nat)
    (hM : e.get_traits.supports_mode M = true)
    (hlo : e.get_traits.visual_min_humidity ≤ T)
    (hhi : T ≤ e.get_traits.visual_max_humidity)
    (hk : T = (k : ℚ) * e.get_traits.visual_target_humidity_step)
    (hs : e.get_traits.visual_target_humidity_step ≠ 0) :
    (Humidifier.construct base junk).restore_state_
        ((((Humidifier.make_call pid).set_mode M).set_target_humidity T).perform
          e rtc true).2.1 =
      some { mode := M, target_humidity := T } := by
  have hclamp : clampf T e.get_traits.visual_min_humidity e.get_traits.visual_max_humidity
      = T := by
    unfold clampf
    rw [max_eq_left hlo, min_eq_left hhi]
  have hround : round_to_nearest_step T e.get_traits.visual_target_humidity_step = T := by
    rw [hk]
    exact round_to_nearest_step_mul k _ hs
  have hval : ((((Humidifier.make_call pid).set_mode M).set_target_humidity T).validate_
      e.get_traits).1 =
      { parent_ := pid, mode_ := some M, target_humidity_ := some T } := by
    unfold HumidifierCall.validate_
    simp [Humidifier.make_call, HumidifierCall.set_mode, HumidifierCall.set_target_humidity,
      hM, hclamp, hround]
  simp only [HumidifierCall.perform, Humidifier.control_generic, Humidifier.publish_state,
    Humidifier.save_state_, hval, Option.getD_some, if_true]
  unfold Humidifier.restore_state_
  simp
/-- Claim C2 counterexample: the spec's own example input.  Dispatching
`mode = AUTO, target = 42` against the `{OFF, ON, AUTO}, [30, 70], step 5`
descriptor persists the validated target `40`, so the restored record is
`{AUTO, 40}`, not `{AUTO, 42}`: the round-trip is not exact for arbitrary
`T`. -/
theorem C2_counterexample :
    (Humidifier.construct traitsW 0).restore_state_
        ((((Humidifier.make_call 0).set_mode
            HumidifierMode.HUMIDIFIER_MODE_AUTO).set_target_humidity 42).perform
          (Humidifier.construct traitsW 50) { slot := none } true).2.1 =
      some { mode := HumidifierMode.HUMIDIFIER_MODE_AUTO, target_humidity := 40 } ∧
    (some { mode := HumidifierMode.HUMIDIFIER_MODE_AUTO, target_humidity := 40 } :
        Option HumidifierDeviceRestoreState) ≠
      some { mode := HumidifierMode.HUMIDIFIER_MODE_AUTO, target_humidity := 42 } := by
  have hsup : (Humidifier.construct traitsW 50).get_traits.supports_mode
      HumidifierMode.HUMIDIFIER_MODE_AUTO = true := rfl
  have hval : ((((Humidifier.make_call 0).set_mode
      HumidifierMode.HUMIDIFIER_MODE_AUTO).set_target_humidity 42).validate_
      (Humidifier.construct traitsW 50).get_traits).1 =
      { parent_ := 0, mode_ := some HumidifierMode.HUMIDIFIER_MODE_AUTO,
        target_humidity_ := some 40 } := by
    unfold HumidifierCall.validate_
    simp only [Humidifier.make_call, HumidifierCall.set_mode,
      HumidifierCall.set_target_humidity, hsup, if_true]
    norm_num [Humidifier.get_traits, Humidifier.construct, traitsW,
      round_to_nearest_step, clampf, round_eq, min_def, max_def]
  constructor
  · simp only [HumidifierCall.perform, Humidifier.control_generic, Humidifier.publish_state,
      Humidifier.save_state_, hval, Option.getD_some, if_true]
    unfold Humidifier.restore_state_
    simp
  · simp only [ne_eq, Option.some.injEq, HumidifierDeviceRestoreState.mk.injEq]
    norm_num
theorem C2_round_trip_witness :
    eW.get_traits.supports_mode HumidifierMode.HUMIDIFIER_MODE_ON = true ∧
    eW.get_traits.visual_min_humidity ≤ (40 : ℚ) ∧
    (40 : ℚ) = ((8 : ℤ) : ℚ) * eW.get_traits.visual_target_humidity_step ∧
    (Humidifier.construct traitsW 0).restore_state_
        ((((Humidifier.make_call 0).set_mode
            HumidifierMode.HUMIDIFIER_MODE_ON).set_target_humidity 40).perform
          eW { slot := none } true).2.1 =
      some { mode := HumidifierMode.HUMIDIFIER_MODE_ON, target_humidity := 40 } :=
  ⟨rfl,
   by norm_num [eW, Humidifier.get_traits, Humidifier.construct, traitsW],
   by norm_num [eW, Humidifier.get_traits, Humidifier.construct, traitsW],
   C2_round_trip eW { slot := none } HumidifierMode.HUMIDIFIER_MODE_ON 40 0 traitsW 8 0
     rfl
     (by norm_num [eW, Humidifier.get_traits, Humidifier.construct, traitsW])
     (by norm_num [eW, Humidifier.get_traits, Humidifier.construct, traitsW])
     (by norm_num [eW, Humidifier.get_traits, Humidifier.construct, traitsW])
     (by norm_num [eW, Humidifier.get_traits, Humidifier.construct, traitsW])⟩
lemma apply_setter_parent (c : HumidifierCall) (op : SetterOp) :
    (c.apply_setter op).parent_ = c.parent_ := by
  cases op with
  | setMode m => rfl
  | setModeOpt m => rfl
  | setModeStr s =>
    show (c.set_mode_string s).parent_ = c.parent_
    unfold HumidifierCall.set_mode_string
    cases humidifier_mode_from_string s <;> rfl
  | setTarget t => rfl
  | setTargetOpt t => rfl

lemma apply_setters_parent (ops : List SetterOp) (c : HumidifierCall) :
    (c.apply_setters ops).parent_ = c.parent_ := by
  induction ops generalizing c with
  | nil => rfl
  | cons op ops ih =>
    show ((c.apply_setter op).apply_setters ops).parent_ = c.parent_
    rw [ih (c.apply_setter op), apply_setter_parent]

/-- Claim C10: a request made from an entity stays bound to that entity
through any chain of setter calls (the `Humidifier *const parent_` binding
is never rebound); chained setters accumulate their fields in the single
request object; and `perform` through the binding touches only the bound
entity's cell of the world, dispatching to the bound entity's state. -/
theorem C10_call_binding (p : Nat) (ops : List SetterOp) (w : HumidifierWorld) (ok : Bool)
    (m : HumidifierMode) (t : ℚ) :
    ((Humidifier.make_call p).apply_setters ops).parent_ = p ∧
    ((Humidifier.make_call p).set_mode m).set_target_humidity t =
      { parent_ := p, mode_ := some m, target_humidity_ := some t } ∧
    (∀ i, i ≠ p →
      ((Humidifier.make_call p).apply_setters ops).perform_world w ok i = w i) ∧
    ((Humidifier.make_call p).apply_setters ops).perform_world w ok p =
      ((((Humidifier.make_call p).apply_setters ops).perform (w p).1 (w p).2 ok).1,
       (((Humidifier.make_call p).apply_setters ops).perform (w p).1 (w p).2 ok).2.1) := by
  have hp : ((Humidifier.make_call p).apply_setters ops).parent_ = p :=
    apply_setters_parent ops (Humidifier.make_call p)
  refine ⟨hp, rfl, ?_, ?_⟩
  · intro i hi
    unfold HumidifierCall.perform_world
    rw [hp, if_neg hi]
  · unfold HumidifierCall.perform_world
    rw [hp, if_pos rfl]

def wW : HumidifierWorld := fun _ => (eW, { slot := none })

theorem C10_call_binding_witness :
    ((Humidifier.make_call 0).apply_setters []).parent_ = 0 ∧
    ((Humidifier.make_call 0).apply_setters []).perform_world wW true 1 = wW 1 :=
  ⟨(C10_call_binding 0 [] wW true HumidifierMode.HUMIDIFIER_MODE_OFF 0).1,
   (C10_call_binding 0 [] wW true HumidifierMode.HUMIDIFIER_MODE_OFF 0).2.2.1 1
     (by decide)⟩
